import Mathlib

/-!
Shallow embedding of the Flask blog application (src/app.py): credential
store (register / login), session gate (load_logged_in_user,
login_required), post repository and ownership guard (get_post) and the
post routes (create, detail, edit, delete).  Handlers are modelled as
pure functions over an explicit database and session state; HTTP
responses are a small inductive type.
-/

namespace Blog

/-- Model of Python str.strip() whitespace test (ASCII whitespace). -/
def isSpaceChar (c : Char) : Bool :=
  c == ' ' || c == '\t' || c == '\n' || c == '\r' || c == '\x0B' || c == '\x0C'

/-- Model of Python str.strip(): drop surrounding whitespace. -/
def strip (s : String) : String :=
  String.mk (((s.data.dropWhile isSpaceChar).reverse.dropWhile isSpaceChar).reverse)

/-- Model of Python str.lower() (character-wise lowercasing). -/
def lower (s : String) : String :=
  String.mk (s.data.map Char.toLower)

/-- Abstract model of a salted password hash as produced by werkzeug
generate_password_hash (pbkdf2:sha256, salt_length=16): it records the
salt and, abstractly, the password it was derived from; verification
succeeds exactly for the original password (ideal one-way hash,
collisions ignored). -/
structure PasswordHash where
  salt : Nat
  secret : String
deriving DecidableEq

/-- Model of werkzeug generate_password_hash. -/
def generate_password_hash (salt : Nat) (password : String) : PasswordHash :=
  ⟨salt, password⟩

/-- Model of werkzeug check_password_hash. -/
def check_password_hash (h : PasswordHash) (password : String) : Bool :=
  h.secret == password

/-- A row of the users table. -/
structure User where
  id : Nat
  username : String
  email : String
  password_hash : PasswordHash
deriving DecidableEq

/-- A row of the posts table. -/
structure Post where
  id : Nat
  user_id : Nat
  title : String
  body : String
  created_at : Nat
deriving DecidableEq

/-- The relational state: the two tables plus the autoincrement counters
and the server-side clock used for created_at defaults. -/
structure DB where
  users : List User
  posts : List Post
  nextUserId : Nat
  nextPostId : Nat
  now : Nat
deriving DecidableEq

/-- The Flask session: a key/value mapping (values are the user ids the
app stores).  session.clear() is the empty list. -/
abbrev Session := List (String × Nat)

/-- session.get(key). -/
def sessionGet (sess : Session) (key : String) : Option Nat :=
  (sess.find? (fun kv => kv.1 == key)).map (fun kv => kv.2)

/-- Caller-visible outcome of a request handler: a rendered template
(with flashed messages and, for the detail/edit pages, the post row
joined with its owner's username), a redirect, or an aborted HTTP
error. -/
inductive Response where
  | render (template : String) (flashes : List (String × String))
      (post : Option (Post × String))
  | redirect (location : String) (flashes : List (String × String))
  | httpError (code : Nat) (message : String)
deriving DecidableEq

/-- SELECT ... FROM posts WHERE posts.id = ? (first matching row). -/
def findPost (db : DB) (post_id : Nat) : Option Post :=
  db.posts.find? (fun p => p.id == post_id)

/-- SELECT ... FROM users WHERE id = ? (first matching row). -/
def findUserById (db : DB) (uid : Nat) : Option User :=
  db.users.find? (fun u => u.id == uid)

/-- SELECT ... FROM users WHERE email = ? (first matching row). -/
def findUserByEmail (db : DB) (email : String) : Option User :=
  db.users.find? (fun u => u.email == email)

/-- before_request load_logged_in_user: resolve g.user from the session's
embedded user id; a stale id (user row gone) resolves to none. -/
def load_logged_in_user (db : DB) (sess : Session) : Option User :=
  match sessionGet sess "user_id" with
  | none => none
  | some uid => findUserById db uid

/-- The login_required decorator: anonymous callers are flashed a warning
and redirected to the login page carrying the requested path as the
next parameter; authenticated callers fall through to the view. -/
def login_required (view : DB → DB × Response) (gUser : Option User)
    (requestPath : String) (db : DB) : DB × Response :=
  match gUser with
  | none =>
      (db, Response.redirect ("/login?next=" ++ requestPath)
        [("請先登入以使用此功能。", "warning")])
  | some _ => view db

/-- Outcome of get_post: the joined row, abort(404), abort(403), or the
TypeError Python would raise subscripting g.user = None. -/
inductive GetPostResult where
  | ok (post : Post) (username : String)
  | notFound
  | forbidden
  | typeError
deriving DecidableEq

/-- get_post(post_id, check_author): fetch the post joined with its
owner's username (no row, including a dangling owner, aborts 404); when
check_author is set, abort 403 unless the current user owns it. -/
def get_post (db : DB) (gUser : Option User) (post_id : Nat)
    (check_author : Bool) : GetPostResult :=
  match findPost db post_id with
  | none => GetPostResult.notFound
  | some post =>
    match findUserById db post.user_id with
    | none => GetPostResult.notFound
    | some owner =>
      if check_author then
        match gUser with
        | none => GetPostResult.typeError
        | some u =>
          if post.user_id ≠ u.id then GetPostResult.forbidden
          else GetPostResult.ok post owner.username
      else GetPostResult.ok post owner.username

/-- The register form fields. -/
structure RegisterForm where
  username : String
  email : String
  password : String
deriving DecidableEq

/-- POST /register: trim username, normalize email, validate, then
insert (username and email are UNIQUE columns; a clash raises
IntegrityError, rendered as a conflict message). -/
def register_post (db : DB) (form : RegisterForm) (salt : Nat) :
    DB × Response :=
  let username := strip form.username
  let email := lower (strip form.email)
  let password := form.password
  if username = "" then
    (db, Response.render "register.html" [("請輸入使用者名稱。", "danger")] none)
  else if email = "" then
    (db, Response.render "register.html" [("請輸入電子郵件。", "danger")] none)
  else if password = "" ∨ password.length < 6 then
    (db, Response.render "register.html" [("請設定至少六個字元的密碼。", "danger")] none)
  else if db.users.any (fun u => u.username == username || u.email == email) then
    (db, Response.render "register.html"
      [("帳號或電子郵件已被使用，請換一個試試。", "danger")] none)
  else
    ({ db with
        users := db.users ++
          [⟨db.nextUserId, username, email, generate_password_hash salt password⟩],
        nextUserId := db.nextUserId + 1 },
     Response.redirect "/login" [("註冊成功，請登入。", "success")])

/-- The login form fields. -/
structure LoginForm where
  email : String
  password : String
deriving DecidableEq

/-- POST /login: look the user up by normalized email and verify the
password; on success reset the session to exactly the user id and
redirect to the next parameter (or home); any mismatch renders the same
generic failure with the session untouched. -/
def login_post (db : DB) (sess : Session) (form : LoginForm)
    (nextArg : Option String) : Session × Response :=
  let email := lower (strip form.email)
  let password := form.password
  match findUserByEmail db email with
  | some user =>
    if check_password_hash user.password_hash password then
      ([("user_id", user.id)],
       Response.redirect (nextArg.getD "/")
         [("歡迎回來，" ++ user.username ++ "！", "success")])
    else
      (sess, Response.render "login.html" [("電子郵件或密碼不正確。", "danger")] none)
  | none =>
      (sess, Response.render "login.html" [("電子郵件或密碼不正確。", "danger")] none)

/-- The new/edit post form fields. -/
structure PostForm where
  title : String
  body : String
deriving DecidableEq

/-- POST /post/new (behind login_required, so gUser is authenticated):
validate the trimmed title and body, then insert with the server-side
creation timestamp. -/
def create_post_post (db : DB) (gUser : User) (form : PostForm) :
    DB × Response :=
  let title := strip form.title
  let body := strip form.body
  if title = "" then
    (db, Response.render "new_post.html" [("請為文章設定標題。", "danger")] none)
  else if body = "" then
    (db, Response.render "new_post.html" [("內容不可為空。", "danger")] none)
  else
    ({ db with
        posts := db.posts ++ [⟨db.nextPostId, gUser.id, title, body, db.now⟩],
        nextPostId := db.nextPostId + 1 },
     Response.redirect ("/post/" ++ toString db.nextPostId)
       [("文章已發佈！", "success")])

/-- The row-level effect of UPDATE posts SET title = ?, body = ?
WHERE id = ?. -/
def applyEdit (post_id : Nat) (title body : String) (p : Post) : Post :=
  if p.id = post_id then { p with title := title, body := body } else p

/-- POST /post/id/edit (behind login_required): get_post with the
ownership check, then the same validation as create, then the UPDATE
touching only title and body of the addressed row. -/
def edit_post_post (db : DB) (gUser : User) (post_id : Nat)
    (form : PostForm) : DB × Response :=
  match get_post db (some gUser) post_id true with
  | GetPostResult.notFound => (db, Response.httpError 404 "找不到這篇文章。")
  | GetPostResult.forbidden => (db, Response.httpError 403 "Forbidden")
  | GetPostResult.typeError => (db, Response.httpError 500 "TypeError")
  | GetPostResult.ok post username =>
    let title := strip form.title
    let body := strip form.body
    if title = "" then
      (db, Response.render "edit_post.html" [("請為文章設定標題。", "danger")]
        (some (post, username)))
    else if body = "" then
      (db, Response.render "edit_post.html" [("內容不可為空。", "danger")]
        (some (post, username)))
    else
      ({ db with posts := db.posts.map (applyEdit post_id title body) },
       Response.redirect ("/post/" ++ toString post_id)
         [("文章已更新。", "success")])

/-- POST /post/id/delete (behind login_required): get_post with the
ownership check, then DELETE FROM posts WHERE id = ?. -/
def delete_post_route (db : DB) (gUser : User) (post_id : Nat) :
    DB × Response :=
  match get_post db (some gUser) post_id true with
  | GetPostResult.notFound => (db, Response.httpError 404 "找不到這篇文章。")
  | GetPostResult.forbidden => (db, Response.httpError 403 "Forbidden")
  | GetPostResult.typeError => (db, Response.httpError 500 "TypeError")
  | GetPostResult.ok _ _ =>
    ({ db with posts := db.posts.filter (fun p => p.id != post_id) },
     Response.redirect "/" [("文章已刪除。", "info")])

/-- GET /post/id: public detail view, get_post with check_author=False
(no ownership check, works for anonymous callers). -/
def post_detail (db : DB) (gUser : Option User) (post_id : Nat) : Response :=
  match get_post db gUser post_id false with
  | GetPostResult.notFound => Response.httpError 404 "找不到這篇文章。"
  | GetPostResult.forbidden => Response.httpError 403 "Forbidden"
  | GetPostResult.typeError => Response.httpError 500 "TypeError"
  | GetPostResult.ok post username =>
      Response.render "post_detail.html" [] (some (post, username))

/-- Concrete states used by the witness theorems. -/
def emptyDB : DB := ⟨[], [], 1, 1, 0⟩

def wuser1 : User := ⟨1, "alice", "a@x.com", generate_password_hash 7 "secret1"⟩

def wuser2 : User := ⟨2, "bob", "b@x.com", generate_password_hash 8 "secret2"⟩

def wpost1 : Post := ⟨1, 1, "T", "B", 3⟩

def wdb : DB := ⟨[wuser1, wuser2], [wpost1], 3, 2, 9⟩

/-- Claim C4: for every request to a protected operation made while the
session state is Anonymous, login_required redirects to the login entry
point carrying the originally requested path as the next parameter, the
database state is returned unchanged, and the wrapped view (universally
quantified and absent from the result) is never executed. -/
theorem login_required_anonymous (view : DB → DB × Response) (path : String)
    (db : DB) :
    login_required view none path db =
      (db, Response.redirect ("/login?next=" ++ path)
        [("請先登入以使用此功能。", "warning")]) := rfl

/-- Claim C10: in get_post the not-found check precedes the ownership
check: whenever no post row matches the id, the result is notFound for
every caller and every value of check_author; and a forbidden result can
only arise for an id that matches an existing post row. -/
theorem get_post_notfound_precedence (db : DB) (gUser : Option User)
    (pid : Nat) (check : Bool) :
    (findPost db pid = none →
      get_post db gUser pid check = GetPostResult.notFound) ∧
    (get_post db gUser pid check = GetPostResult.forbidden →
      ∃ p, findPost db pid = some p) := by
  constructor
  · intro h
    simp [get_post, h]
  · intro h
    cases hfp : findPost db pid with
    | none => simp [get_post, hfp] at h
    | some p => exact ⟨p, rfl⟩

theorem get_post_notfound_precedence_witness :
    get_post wdb none 99 true = GetPostResult.notFound :=
  (get_post_notfound_precedence wdb none 99 true).1 (by decide)

/-- Claim C8: a session whose embedded user id references no existing
user resolves silently to the Anonymous state (g.user = none), and the
login_required guard then treats the caller exactly like an anonymous
one: redirect to login, view not executed, state unchanged. -/
theorem stale_session_anonymous (db : DB) (sess : Session) (uid : Nat)
    (view : DB → DB × Response) (path : String)
    (hsess : sessionGet sess "user_id" = some uid)
    (hnone : findUserById db uid = none) :
    load_logged_in_user db sess = none ∧
    login_required view (load_logged_in_user db sess) path db =
      (db, Response.redirect ("/login?next=" ++ path)
        [("請先登入以使用此功能。", "warning")]) := by
  have h : load_logged_in_user db sess = none := by
    simp [load_logged_in_user, hsess, hnone]
  exact ⟨h, by simp [h, login_required]⟩

theorem stale_session_anonymous_witness :
    load_logged_in_user wdb [("user_id", 42)] = none ∧
    login_required (fun db => (db, Response.redirect "/" []))
        (load_logged_in_user wdb [("user_id", 42)]) "/post/new" wdb =
      (wdb, Response.redirect ("/login?next=" ++ "/post/new")
        [("請先登入以使用此功能。", "warning")]) :=
  stale_session_anonymous wdb [("user_id", 42)] 42
    (fun db => (db, Response.redirect "/" [])) "/post/new"
    (by decide) (by decide)

/-- Claim C9: on every successful authentication the session is reset in
full before the identity is stored: whatever the prior session contents,
the resulting session is exactly the single binding of user_id to the
authenticated user's id. -/
theorem login_resets_session (db : DB) (sess : Session) (form : LoginForm)
    (nextArg : Option String) (u : User)
    (hfind : findUserByEmail db (lower (strip form.email)) = some u)
    (hpw : check_password_hash u.password_hash form.password = true) :
    (login_post db sess form nextArg).1 = [("user_id", u.id)] := by
  simp [login_post, hfind, hpw]

theorem login_resets_session_witness :
    (login_post wdb [("user_id", 2), ("stale", 7)]
        ⟨"a@x.com", "secret1"⟩ none).1 = [("user_id", wuser1.id)] :=
  login_resets_session wdb [("user_id", 2), ("stale", 7)]
    ⟨"a@x.com", "secret1"⟩ none wuser1 (by decide) (by decide)

/-- Claim C1: for every existing post p (whose owner row exists, as the
SQL join requires) and every authenticated user u who is not the owner,
the edit route and the delete route both abort with 403 Forbidden and
leave the database unchanged, while the public detail view succeeds for
u and for anonymous callers without any ownership check. -/
theorem ownership_guard (db : DB) (u owner : User) (p : Post)
    (form : PostForm)
    (hp : findPost db p.id = some p)
    (howner : findUserById db p.user_id = some owner)
    (hne : p.user_id ≠ u.id) :
    edit_post_post db u p.id form = (db, Response.httpError 403 "Forbidden") ∧
    delete_post_route db u p.id = (db, Response.httpError 403 "Forbidden") ∧
    post_detail db (some u) p.id =
      Response.render "post_detail.html" [] (some (p, owner.username)) ∧
    post_detail db none p.id =
      Response.render "post_detail.html" [] (some (p, owner.username)) := by
  have hforb : get_post db (some u) p.id true = GetPostResult.forbidden := by
    simp [get_post, hp, howner, hne]
  have hok : ∀ gu : Option User,
      get_post db gu p.id false = GetPostResult.ok p owner.username := by
    intro gu
    simp [get_post, hp, howner]
  refine ⟨?_, ?_, ?_, ?_⟩
  · simp [edit_post_post, hforb]
  · simp [delete_post_route, hforb]
  · simp [post_detail, hok (some u)]
  · simp [post_detail, hok none]

theorem ownership_guard_witness :
    edit_post_post wdb wuser2 wpost1.id ⟨"X", "Y"⟩ =
      (wdb, Response.httpError 403 "Forbidden") ∧
    delete_post_route wdb wuser2 wpost1.id =
      (wdb, Response.httpError 403 "Forbidden") ∧
    post_detail wdb (some wuser2) wpost1.id =
      Response.render "post_detail.html" [] (some (wpost1, wuser1.username)) ∧
    post_detail wdb none wpost1.id =
      Response.render "post_detail.html" [] (some (wpost1, wuser1.username)) :=
  ownership_guard wdb wuser2 wuser1 wpost1 ⟨"X", "Y"⟩
    (by decide) (by decide) (by decide)

/-- Claim C2: for a registration whose trimmed username and normalized
email are non-empty, a password shorter than 6 characters always fails
with the validation message and creates no user record, while a password
of exactly 6 characters with no uniqueness conflict succeeds, storing
the normalized email and redirecting to login. -/
theorem register_password_rule (db : DB) (form : RegisterForm) (salt : Nat)
    (hu : strip form.username ≠ "")
    (he : lower (strip form.email) ≠ "") :
    (form.password.length < 6 →
      register_post db form salt =
        (db, Response.render "register.html"
          [("請設定至少六個字元的密碼。", "danger")] none)) ∧
    (form.password.length = 6 →
      db.users.any (fun u => u.username == strip form.username ||
        u.email == lower (strip form.email)) = false →
      register_post db form salt =
        ({ db with
            users := db.users ++
              [⟨db.nextUserId, strip form.username, lower (strip form.email),
                generate_password_hash salt form.password⟩],
            nextUserId := db.nextUserId + 1 },
         Response.redirect "/login" [("註冊成功，請登入。", "success")])) := by
  constructor
  · intro hlt
    simp [register_post, hu, he, hlt]
  · intro h6 hconf
    have hne : form.password ≠ "" := by
      intro h0
      rw [h0] at h6
      simp at h6
    have hnlt : ¬ form.password.length < 6 := by omega
    simp [register_post, hu, he, hne, hnlt, hconf]

theorem register_password_rule_witness :
    register_post emptyDB ⟨"alice", "a@x.com", "abc"⟩ 7 =
      (emptyDB, Response.render "register.html"
        [("請設定至少六個字元的密碼。", "danger")] none) ∧
    register_post emptyDB ⟨"alice", "a@x.com", "abcdef"⟩ 7 =
      ({ emptyDB with
          users := emptyDB.users ++
            [⟨emptyDB.nextUserId, strip "alice", lower (strip "a@x.com"),
              generate_password_hash 7 "abcdef"⟩],
          nextUserId := emptyDB.nextUserId + 1 },
       Response.redirect "/login" [("註冊成功，請登入。", "success")]) :=
  ⟨(register_password_rule emptyDB ⟨"alice", "a@x.com", "abc"⟩ 7
      (by decide) (by decide)).1 (by decide),
   (register_password_rule emptyDB ⟨"alice", "a@x.com", "abcdef"⟩ 7
      (by decide) (by decide)).2 (by decide) (by decide)⟩

/-- Claim C3: an attempt with a registered email but wrong password and
an attempt with an email registered to no user both leave the session
untouched (no identity) and produce the identical generic failure
response, so the caller cannot distinguish the two causes. -/
theorem login_enumeration_safe (db : DB) (sess : Session)
    (f1 f2 : LoginForm) (na1 na2 : Option String) (u : User)
    (h1 : findUserByEmail db (lower (strip f1.email)) = some u)
    (h1pw : check_password_hash u.password_hash f1.password = false)
    (h2 : findUserByEmail db (lower (strip f2.email)) = none) :
    login_post db sess f1 na1 =
      (sess, Response.render "login.html"
        [("電子郵件或密碼不正確。", "danger")] none) ∧
    login_post db sess f2 na2 =
      (sess, Response.render "login.html"
        [("電子郵件或密碼不正確。", "danger")] none) ∧
    login_post db sess f1 na1 = login_post db sess f2 na2 := by
  have e1 : login_post db sess f1 na1 =
      (sess, Response.render "login.html"
        [("電子郵件或密碼不正確。", "danger")] none) := by
    simp [login_post, h1, h1pw]
  have e2 : login_post db sess f2 na2 =
      (sess, Response.render "login.html"
        [("電子郵件或密碼不正確。", "danger")] none) := by
    simp [login_post, h2]
  exact ⟨e1, e2, e1.trans e2.symm⟩

theorem login_enumeration_safe_witness :
    login_post wdb [] ⟨"a@x.com", "wrongpw"⟩ none =
      (([] : Session), Response.render "login.html"
        [("電子郵件或密碼不正確。", "danger")] none) ∧
    login_post wdb [] ⟨"nobody@x.com", "anything"⟩ (some "/post/new") =
      (([] : Session), Response.render "login.html"
        [("電子郵件或密碼不正確。", "danger")] none) ∧
    login_post wdb [] ⟨"a@x.com", "wrongpw"⟩ none =
      login_post wdb [] ⟨"nobody@x.com", "anything"⟩ (some "/post/new") :=
  login_enumeration_safe wdb [] ⟨"a@x.com", "wrongpw"⟩
    ⟨"nobody@x.com", "anything"⟩ none (some "/post/new") wuser1
    (by decide) (by decide) (by decide)

/-- Claim C6: a create, or an update by the owner of an existing post,
whose title or body is empty after trimming (including whitespace-only
input) is rejected with the corresponding validation message and leaves
the database unchanged — no post created, no post modified; update runs
exactly the same validation as create. -/
theorem post_input_validation (db : DB) (u owner : User) (p : Post)
    (form : PostForm)
    (hval : strip form.title = "" ∨ strip form.body = "")
    (hp : findPost db p.id = some p)
    (howner : findUserById db p.user_id = some owner)
    (hown : p.user_id = u.id) :
    (create_post_post db u form).1 = db ∧
    ((create_post_post db u form).2 =
        Response.render "new_post.html" [("請為文章設定標題。", "danger")] none ∨
     (create_post_post db u form).2 =
        Response.render "new_post.html" [("內容不可為空。", "danger")] none) ∧
    (edit_post_post db u p.id form).1 = db ∧
    ((edit_post_post db u p.id form).2 =
        Response.render "edit_post.html" [("請為文章設定標題。", "danger")]
          (some (p, owner.username)) ∨
     (edit_post_post db u p.id form).2 =
        Response.render "edit_post.html" [("內容不可為空。", "danger")]
          (some (p, owner.username))) := by
  have howner' : findUserById db u.id = some owner := hown ▸ howner
  have hok : get_post db (some u) p.id true =
      GetPostResult.ok p owner.username := by
    simp [get_post, hp, hown, howner']
  by_cases ht : strip form.title = ""
  · refine ⟨?_, Or.inl ?_, ?_, Or.inl ?_⟩ <;>
      simp [create_post_post, edit_post_post, hok, ht]
  · have hb : strip form.body = "" := hval.resolve_left ht
    refine ⟨?_, Or.inr ?_, ?_, Or.inr ?_⟩ <;>
      simp [create_post_post, edit_post_post, hok, ht, hb]

theorem post_input_validation_witness :
    (create_post_post wdb wuser1 ⟨"  ", "content"⟩).1 = wdb ∧
    ((create_post_post wdb wuser1 ⟨"  ", "content"⟩).2 =
        Response.render "new_post.html" [("請為文章設定標題。", "danger")] none ∨
     (create_post_post wdb wuser1 ⟨"  ", "content"⟩).2 =
        Response.render "new_post.html" [("內容不可為空。", "danger")] none) ∧
    (edit_post_post wdb wuser1 wpost1.id ⟨"  ", "content"⟩).1 = wdb ∧
    ((edit_post_post wdb wuser1 wpost1.id ⟨"  ", "content"⟩).2 =
        Response.render "edit_post.html" [("請為文章設定標題。", "danger")]
          (some (wpost1, wuser1.username)) ∨
     (edit_post_post wdb wuser1 wpost1.id ⟨"  ", "content"⟩).2 =
        Response.render "edit_post.html" [("內容不可為空。", "danger")]
          (some (wpost1, wuser1.username))) :=
  post_input_validation wdb wuser1 wuser1 wpost1 ⟨"  ", "content"⟩
    (by decide) (by decide) (by decide) (by decide)

/-- Claim C7: a successful update (one whose response is a redirect)
changes only the addressed post's title and body: the users table is
untouched, the posts table is the pointwise image of applyEdit, and
applyEdit preserves every post's id, owner and creation timestamp and
is the identity on every post with a different id. -/
theorem edit_post_frame (db : DB) (u : User) (pid : Nat) (form : PostForm)
    (loc : String) (fl : List (String × String))
    (hsucc : (edit_post_post db u pid form).2 = Response.redirect loc fl) :
    (edit_post_post db u pid form).1.users = db.users ∧
    (edit_post_post db u pid form).1.posts =
      db.posts.map (applyEdit pid (strip form.title) (strip form.body)) ∧
    (∀ q : Post,
      (applyEdit pid (strip form.title) (strip form.body) q).id = q.id ∧
      (applyEdit pid (strip form.title) (strip form.body) q).user_id =
        q.user_id ∧
      (applyEdit pid (strip form.title) (strip form.body) q).created_at =
        q.created_at) ∧
    (∀ q : Post, q.id ≠ pid →
      applyEdit pid (strip form.title) (strip form.body) q = q) := by
  have happly : (∀ q : Post,
      (applyEdit pid (strip form.title) (strip form.body) q).id = q.id ∧
      (applyEdit pid (strip form.title) (strip form.body) q).user_id =
        q.user_id ∧
      (applyEdit pid (strip form.title) (strip form.body) q).created_at =
        q.created_at) ∧
    (∀ q : Post, q.id ≠ pid →
      applyEdit pid (strip form.title) (strip form.body) q = q) := by
    constructor
    · intro q
      unfold applyEdit
      split <;> simp
    · intro q hq
      simp [applyEdit, hq]
  cases hg : get_post db (some u) pid true with
  | notFound => simp [edit_post_post, hg] at hsucc
  | forbidden => simp [edit_post_post, hg] at hsucc
  | typeError => simp [edit_post_post, hg] at hsucc
  | ok post username =>
    by_cases ht : strip form.title = ""
    · simp [edit_post_post, hg, ht] at hsucc
    · by_cases hb : strip form.body = ""
      · simp [edit_post_post, hg, ht, hb] at hsucc
      · refine ⟨?_, ?_, happly.1, happly.2⟩ <;>
          simp [edit_post_post, hg, ht, hb]

theorem edit_post_frame_witness :
    (edit_post_post wdb wuser1 wpost1.id ⟨"T2", "B2"⟩).1.users = wdb.users ∧
    (edit_post_post wdb wuser1 wpost1.id ⟨"T2", "B2"⟩).1.posts =
      wdb.posts.map (applyEdit wpost1.id (strip "T2") (strip "B2")) :=
  ⟨(edit_post_frame wdb wuser1 wpost1.id ⟨"T2", "B2"⟩ ("/post/" ++ toString wpost1.id)
      [("文章已更新。", "success")] (by decide)).1,
   (edit_post_frame wdb wuser1 wpost1.id ⟨"T2", "B2"⟩ ("/post/" ++ toString wpost1.id)
      [("文章已更新。", "success")] (by decide)).2.1⟩

/-- Claim C5 counterexample: after a first successful registration, a
second request with the same email (case-insensitively) but an empty
username fails with the username validation message, not with the
uniqueness-conflict message — the claim as stated, quantifying over
every second request, is false. -/
theorem register_duplicate_email_cex :
    (register_post emptyDB ⟨"alice", "a@x.com", "secret1"⟩ 7).2 =
      Response.redirect "/login" [("註冊成功，請登入。", "success")] ∧
    lower (strip "A@X.com") = lower (strip "a@x.com") ∧
    (register_post (register_post emptyDB ⟨"alice", "a@x.com", "secret1"⟩ 7).1
        ⟨"", "A@X.com", "secret1"⟩ 8).2 =
      Response.render "register.html" [("請輸入使用者名稱。", "danger")] none ∧
    (register_post (register_post emptyDB ⟨"alice", "a@x.com", "secret1"⟩ 7).1
        ⟨"", "A@X.com", "secret1"⟩ 8).2 ≠
      Response.render "register.html"
        [("帳號或電子郵件已被使用，請換一個試試。", "danger")] none := by
  decide

/-- Claim C5 (amended): for two registration requests whose emails are
equal case-insensitively after trimming, where the second passes its own
input validation (non-empty trimmed username, password of at least 6
characters), if the first succeeds then the second fails with the
uniqueness-conflict message and creates no user record, because the
email is stored lowercased and uniqueness is checked on the stored
value. -/
theorem register_duplicate_email_conflict (db : DB) (f1 f2 : RegisterForm)
    (s1 s2 : Nat) (loc : String) (fl : List (String × String))
    (hsucc : (register_post db f1 s1).2 = Response.redirect loc fl)
    (hemail : lower (strip f2.email) = lower (strip f1.email))
    (hu2 : strip f2.username ≠ "")
    (hp2 : ¬ (f2.password = "" ∨ f2.password.length < 6)) :
    register_post (register_post db f1 s1).1 f2 s2 =
      ((register_post db f1 s1).1,
       Response.render "register.html"
         [("帳號或電子郵件已被使用，請換一個試試。", "danger")] none) := by
  by_cases h1 : strip f1.username = ""
  · simp [register_post, h1] at hsucc
  by_cases h2 : lower (strip f1.email) = ""
  · simp [register_post, h1, h2] at hsucc
  by_cases h3 : f1.password = "" ∨ f1.password.length < 6
  · simp [register_post, h1, h2, h3] at hsucc
  by_cases h4 : db.users.any (fun u => u.username == strip f1.username ||
      u.email == lower (strip f1.email)) = true
  · simp [register_post, h1, h2, h3, h4] at hsucc
  have hdb1 : (register_post db f1 s1).1 =
      { db with
          users := db.users ++
            [⟨db.nextUserId, strip f1.username, lower (strip f1.email),
              generate_password_hash s1 f1.password⟩],
          nextUserId := db.nextUserId + 1 } := by
    simp [register_post, h1, h2, h3, h4]
  have hemail2 : lower (strip f2.email) ≠ "" := by
    rw [hemail]
    exact h2
  rw [hdb1]
  have hconf : (db.users ++
      [({ id := db.nextUserId, username := strip f1.username,
          email := lower (strip f1.email),
          password_hash := generate_password_hash s1 f1.password } : User)]).any
      (fun u => u.username == strip f2.username ||
        u.email == lower (strip f2.email)) = true := by
    apply List.any_eq_true.mpr
    refine ⟨_, List.mem_append_right _ (List.mem_singleton.mpr rfl), ?_⟩
    simp [hemail]
  simp only [register_post, hu2, hemail2, hp2, hconf, if_false, if_true,
    ite_false, ite_true, eq_self_iff_true]

theorem register_duplicate_email_conflict_witness :
    register_post (register_post emptyDB ⟨"alice", "a@x.com", "secret1"⟩ 7).1
        ⟨"bob", " A@X.com", "secret2"⟩ 8 =
      ((register_post emptyDB ⟨"alice", "a@x.com", "secret1"⟩ 7).1,
       Response.render "register.html"
         [("帳號或電子郵件已被使用，請換一個試試。", "danger")] none) :=
  register_duplicate_email_conflict emptyDB ⟨"alice", "a@x.com", "secret1"⟩
    ⟨"bob", " A@X.com", "secret2"⟩ 7 8 "/login"
    [("註冊成功，請登入。", "success")]
    (by decide) (by decide) (by decide) (by decide)

end Blog
